import Mathlib

/-!
Shallow embedding of profile_image_api.py (temple_yatra_profile_generator).

Conventions of the embedding:
* Python strings are Lean String values; character-level operations work on
  the underlying character list so that everything reduces by computation.
  Python str.strip and str.upper are modelled over the ASCII range
  (Char.isWhitespace, Char.toUpper); the divergence on exotic Unicode
  (e.g. the German eszett uppercasing to two characters) is outside the model.
* Python exceptions are an explicit error type PyErr threaded with Except.
* JSON / Python values reaching the handlers are an inductive PyVal.
  As in Python, a bool is an instance of int (True compares equal to 1).
* The on-disk variant store is an association list: directory name to the
  list of files, each file a name paired with its byte content (Nat < 256).
* Randomness is made explicit: random.sample becomes a colors parameter
  whose guarantee (length, no duplicates, drawn from the palette) appears as
  the sample_spec hypothesis; random.choice becomes a pick : Nat parameter
  selecting index pick mod length, which ranges over every element.
* The renderer (PIL) is an external collaborator; it is a render parameter
  producing the bytes of the image for given initials, variant and color.
-/

/-- Python exception kinds raised by the translated code, with their str(e) message. -/
inductive PyErr where
  | valueError (msg : String)
  | indexError (msg : String)
  | attributeError (msg : String)
  | typeError (msg : String)
  | keyError (msg : String)
deriving DecidableEq

/-- Message of an exception, as Python str(e). -/
def pyErrMsg : PyErr → String
  | PyErr.valueError m => m
  | PyErr.indexError m => m
  | PyErr.attributeError m => m
  | PyErr.typeError m => m
  | PyErr.keyError m => m

/-- Values produced by parsing a JSON request body (Flask request.get_json). -/
inductive PyVal where
  | int (n : Int)
  | bool (b : Bool)
  | str (s : String)
  | list (xs : List PyVal)
  | dict (d : List (String × PyVal))
  | none

/-- A Python dict with string keys, in insertion order. -/
abbrev PyDict := List (String × PyVal)

/-- Python truthiness of a value (bool(v)). -/
def pyTruthy : PyVal → Bool
  | PyVal.int n => n != 0
  | PyVal.bool b => b
  | PyVal.str s => s != ""
  | PyVal.list xs => !xs.isEmpty
  | PyVal.dict d => !d.isEmpty
  | PyVal.none => false

/-- Python isinstance(v, int); note that Python bools are instances of int. -/
def py_isinstance_int : PyVal → Bool
  | PyVal.int _ => true
  | PyVal.bool _ => true
  | _ => false

/-- The integer a Python int-like value stands for (True is 1, False is 0). -/
def pyIntValue : PyVal → Int
  | PyVal.int n => n
  | PyVal.bool b => if b then 1 else 0
  | _ => 0

/-- Python str.strip(): remove leading and trailing whitespace. -/
def py_strip (s : String) : String :=
  String.mk (((s.data.dropWhile Char.isWhitespace).reverse.dropWhile Char.isWhitespace).reverse)

/-- Python sequence indexing seq[i] for a nonnegative index: IndexError when out of range. -/
def py_index {α : Type} (l : List α) (i : Nat) : Except PyErr α :=
  match l[i]? with
  | Option.some a => Except.ok a
  | Option.none => Except.error (PyErr.indexError "index out of range")

/-- Digits-only integer literal scan used by py_int. -/
def natOfDigits (l : List Char) : Nat :=
  l.foldl (fun a c => a * 10 + (c.toNat - 48)) 0

/-- Python int(s) on a character list: optional leading minus then decimal digits. -/
def py_int_chars : List Char → Option Int
  | [] => Option.none
  | '-' :: rest =>
      if rest.isEmpty || !rest.all Char.isDigit then Option.none
      else Option.some (-(natOfDigits rest : Int))
  | l =>
      if !l.all Char.isDigit then Option.none
      else Option.some (natOfDigits l : Int)

/-- Python int(s): ValueError when the string is not an integer literal. -/
def py_int (s : String) : Except PyErr Int :=
  match py_int_chars s.data with
  | Option.some n => Except.ok n
  | Option.none => Except.error (PyErr.valueError ("invalid literal for int() with base 10: " ++ s))

/-- Python random.choice(seq): IndexError on an empty sequence, otherwise the
element at index pick mod length; every element is selected by some pick. -/
def py_choice {α : Type} (l : List α) (pick : Nat) : Except PyErr α :=
  match l with
  | [] => Except.error (PyErr.indexError "Cannot choose from empty sequence")
  | a :: rest => Except.ok ((a :: rest).getD (pick % (a :: rest).length) a)

/-- Python str.endswith(t): t is a suffix of s. -/
def py_endswith (s t : String) : Bool :=
  List.isSuffixOf t.data s.data

/-- Worker for py_split: scan for the separator left to right.  The fuel is the
length of the remaining input; every step consumes at least one character, so
the fuel-exhausted branch is unreachable from py_split. -/
def splitGo (sep : List Char) : Nat → List Char → List Char → List (List Char)
  | _, [], acc => [acc.reverse]
  | 0, l, acc => [acc.reverse ++ l]
  | fuel + 1, c :: rest, acc =>
      if List.isPrefixOf sep (c :: rest) then
        acc.reverse :: splitGo sep fuel (List.drop (sep.length - 1) rest) []
      else
        splitGo sep fuel rest (c :: acc)

/-- Python s.split(sep) for a non-empty separator. -/
def py_split (s sep : String) : List String :=
  (splitGo sep.data s.data.length s.data []).map String.mk

/-- Python dict lookup on an association list (first binding wins). -/
def pyLookup (d : PyDict) (k : String) : Option PyVal :=
  List.lookup k d

/-- Python v.get(k, dflt): AttributeError when v is not a dict. -/
def py_get (v : PyVal) (k : String) (dflt : PyVal) : Except PyErr PyVal :=
  match v with
  | PyVal.dict d => Except.ok ((pyLookup d k).getD dflt)
  | _ => Except.error (PyErr.attributeError "object has no attribute get")

/-- The composite v.get(k, '').strip() used by the handlers:
AttributeError when v is not a dict or the field value is not a string. -/
def py_get_strip (v : PyVal) (k : String) : Except PyErr String :=
  match py_get v k (PyVal.str "") with
  | Except.error e => Except.error e
  | Except.ok (PyVal.str s) => Except.ok (py_strip s)
  | Except.ok _ => Except.error (PyErr.attributeError "object has no attribute strip")

/-- Python membership test (k in v) for a string key k:
key test on dicts, element test on lists, substring test on strings,
TypeError otherwise. -/
def pyContains (v : PyVal) (k : String) : Except PyErr Bool :=
  match v with
  | PyVal.dict d => Except.ok (d.any (fun e => e.1 == k))
  | PyVal.list xs =>
      Except.ok (xs.any (fun x => match x with | PyVal.str s => s == k | _ => false))
  | PyVal.str s => Except.ok (k == "" || (py_split s k).length > 1)
  | _ => Except.error (PyErr.typeError "argument of type is not iterable")

/-- Python subscription v[k] for a string key: KeyError when absent,
TypeError when v is not a dict. -/
def pyGetItem (v : PyVal) (k : String) : Except PyErr PyVal :=
  match v with
  | PyVal.dict d =>
      match pyLookup d k with
      | Option.some x => Except.ok x
      | Option.none => Except.error (PyErr.keyError k)
  | _ => Except.error (PyErr.typeError "object is not subscriptable")

/-- Wrap an optional dict as the JSON value appearing in a response. -/
def optDict : Option PyDict → PyVal
  | Option.some d => PyVal.dict d
  | Option.none => PyVal.none

/-- BACKGROUND_COLORS: the fixed 12-color palette of profile_image_api.py. -/
def BACKGROUND_COLORS : List String :=
  ["#FF9933", "#FFD700", "#A569BD", "#1ABC9C", "#2C3E50", "#E74C3C",
   "#F39C12", "#27AE60", "#8E44AD", "#D35400", "#2980B9", "#C0392B"]

/-- OUTPUT_DIR constant of profile_image_api.py. -/
def OUTPUT_DIR : String := "generated_images"

/-- The guarantee of random.sample(pop, k): k pairwise-distinct elements of pop. -/
def sample_spec (sample pop : List String) (k : Nat) : Prop :=
  sample.length = k ∧ sample.Nodup ∧ ∀ c ∈ sample, c ∈ pop

/-- The file store: one entry per directory under OUTPUT_DIR, each directory a
list of files, each file a name with its byte content. -/
abbrev FS := List (String × List (String × List Nat))

/-- Contents of a directory, None when the directory does not exist
(os.path.exists on the directory path). -/
def fsFindDir (fs : FS) (d : String) : Option (List (String × List Nat)) :=
  List.lookup d fs

/-- os.makedirs(dir, exist_ok=True): create the directory when absent. -/
def fsMkdir (fs : FS) (d : String) : FS :=
  if (fsFindDir fs d).isSome then fs else fs ++ [(d, [])]

/-- Write a file into a directory listing, overwriting a file of the same name. -/
def setFile : List (String × List Nat) → String → List Nat → List (String × List Nat)
  | [], n, b => [(n, b)]
  | (f, c) :: rest, n, b =>
      if f = n then (n, b) :: rest else (f, c) :: setFile rest n b

/-- img.save(filepath): write bytes into an existing directory of the store. -/
def fsWrite (fs : FS) (d n : String) (b : List Nat) : FS :=
  fs.map (fun e => if e.1 = d then (e.1, setFile e.2 n b) else e)

/-- The signature of create_image: initials, variant number and background
color to the bytes of the rendered PNG.  The renderer (PIL) is an external
collaborator, so it is a parameter of the store operations. -/
abbrev RenderFn := String → Nat → String → List Nat

/-- extract_initials of profile_image_api.py: reject when either name is the
empty string, then take the first character of each stripped name, uppercased.
A whitespace-only (but non-empty) name passes the emptiness test and the
subsequent indexing of the stripped string raises IndexError. -/
def extract_initials (first_name last_name : String) : Except PyErr String :=
  if first_name = "" ∨ last_name = "" then
    Except.error (PyErr.valueError "Both first_name and last_name are required")
  else
    match py_index (py_strip first_name).data 0 with
    | Except.error e => Except.error e
    | Except.ok fc =>
      match py_index (py_strip last_name).data 0 with
      | Except.error e => Except.error e
      | Except.ok lc => Except.ok (String.mk [fc.toUpper, lc.toUpper])

/-- The f-string {initials}_variant{n}.png. -/
def mkFilename (initials : String) (v : Nat) : String :=
  initials ++ "_variant" ++ Nat.repr v ++ ".png"

/-- os.path.join(OUTPUT_DIR, initials, filename). -/
def mkFilepath (initials filename : String) : String :=
  OUTPUT_DIR ++ "/" ++ initials ++ "/" ++ filename

/-- The public URL /image/{initials}/{filename}. -/
def mkUrl (initials filename : String) : String :=
  "/image/" ++ initials ++ "/" ++ filename

/-- The per-variant dict appended by generate_variants. -/
def mkVariantDict (initials : String) (v : Nat) (bg : String) : PyDict :=
  [("variant", PyVal.int (v : Int)),
   ("filename", PyVal.str (mkFilename initials v)),
   ("filepath", PyVal.str (mkFilepath initials (mkFilename initials v))),
   ("bg_color", PyVal.str bg),
   ("url", PyVal.str (mkUrl initials (mkFilename initials v)))]

/-- The loop of generate_variants over the variant numbers, building the image,
saving it and accumulating the descriptor; colors[variant-1] raises IndexError
past the end of the sample. -/
def gen_loop (render : RenderFn) (initials : String) (colors : List String) :
    FS → List Nat → Except PyErr (List PyDict) × FS
  | fs, [] => (Except.ok [], fs)
  | fs, v :: rest =>
      match py_index colors (v - 1) with
      | Except.error e => (Except.error e, fs)
      | Except.ok bg =>
          let bytes := render initials v bg
          let fs' := fsWrite fs initials (mkFilename initials v) bytes
          match gen_loop render initials colors fs' rest with
          | (Except.error e, fs'') => (Except.error e, fs'')
          | (Except.ok ds, fs'') => (Except.ok (mkVariantDict initials v bg :: ds), fs'')

/-- generate_variants of profile_image_api.py.  The colors parameter stands for
the result of random.sample(BACKGROUND_COLORS, min(num_variants, 12)); the
sample_spec hypothesis of the theorems records that guarantee. -/
def generate_variants (render : RenderFn) (fs : FS) (initials : String)
    (num_variants : Nat) (colors : List String) : Except PyErr (List PyDict) × FS :=
  gen_loop render initials colors (fsMkdir fs initials) (List.range' 1 num_variants)

/-- get_random_variant of profile_image_api.py.  The pick parameter stands for
the draw of random.choice.  The function returns Optional[Dict] in the source;
no branch produces None. -/
def get_random_variant (render : RenderFn) (fs : FS) (initials : String)
    (colors : List String) (pick : Nat) : Except PyErr (Option PyDict) × FS :=
  match fsFindDir fs initials with
  | Option.none =>
      match generate_variants render fs initials 3 colors with
      | (Except.error e, fs') => (Except.error e, fs')
      | (Except.ok variants, fs') =>
          match py_choice variants pick with
          | Except.error e => (Except.error e, fs')
          | Except.ok v => (Except.ok (Option.some v), fs')
  | Option.some files =>
      let pngs := (files.map Prod.fst).filter (fun f => py_endswith f ".png")
      if pngs.isEmpty then
        match generate_variants render fs initials 3 colors with
        | (Except.error e, fs') => (Except.error e, fs')
        | (Except.ok variants, fs') =>
            match py_choice variants pick with
            | Except.error e => (Except.error e, fs')
            | Except.ok v => (Except.ok (Option.some v), fs')
      else
        match py_choice pngs pick with
        | Except.error e => (Except.error e, fs)
        | Except.ok random_file =>
            match py_index (py_split random_file "_variant") 1 with
            | Except.error e => (Except.error e, fs)
            | Except.ok part =>
              match py_index (py_split part ".") 0 with
              | Except.error e => (Except.error e, fs)
              | Except.ok numStr =>
                match py_int numStr with
                | Except.error e => (Except.error e, fs)
                | Except.ok n =>
                    (Except.ok (Option.some
                      [("variant", PyVal.int n),
                       ("filename", PyVal.str random_file),
                       ("filepath", PyVal.str (mkFilepath initials random_file)),
                       ("url", PyVal.str (mkUrl initials random_file))]), fs)

/-- The base64 alphabet of RFC 4648, as used by Python base64.b64encode. -/
def b64Table : List Char :=
  ['A','B','C','D','E','F','G','H','I','J','K','L','M','N','O','P','Q','R','S','T','U','V','W','X','Y','Z',
   'a','b','c','d','e','f','g','h','i','j','k','l','m','n','o','p','q','r','s','t','u','v','w','x','y','z',
   '0','1','2','3','4','5','6','7','8','9','+','/']

/-- Character of a six-bit group. -/
def sextetChar (n : Nat) : Char :=
  b64Table.getD n 'A'

/-- Six-bit group of an alphabet character (position in the table). -/
def charSextet (c : Char) : Nat :=
  List.indexOf c b64Table

/-- Python base64.b64encode on a byte list: three bytes become four alphabet
characters; a final group of one or two bytes is padded with =. -/
def b64encodeBytes : List Nat → List Char
  | [] => []
  | [b1] =>
      [sextetChar (b1 / 4), sextetChar (b1 % 4 * 16), '=', '=']
  | [b1, b2] =>
      [sextetChar (b1 / 4), sextetChar (b1 % 4 * 16 + b2 / 16), sextetChar (b2 % 16 * 4), '=']
  | b1 :: b2 :: b3 :: rest =>
      sextetChar (b1 / 4) :: sextetChar (b1 % 4 * 16 + b2 / 16) ::
      sextetChar (b2 % 16 * 4 + b3 / 64) :: sextetChar (b3 % 64) :: b64encodeBytes rest

/-- Base64 decoding of well-formed input (the client-side operation the
round-trip property of the spec speaks about): four alphabet characters become
three bytes; = padding at the end yields one or two bytes. -/
def b64decodeChars : List Char → List Nat
  | c1 :: c2 :: c3 :: c4 :: rest =>
      if c3 = '=' then
        [charSextet c1 * 4 + charSextet c2 / 16]
      else if c4 = '=' then
        [charSextet c1 * 4 + charSextet c2 / 16,
         charSextet c2 % 16 * 16 + charSextet c3 / 4]
      else
        (charSextet c1 * 4 + charSextet c2 / 16) ::
        (charSextet c2 % 16 * 16 + charSextet c3 / 4) ::
        (charSextet c3 % 4 * 64 + charSextet c4) :: b64decodeChars rest
  | _ => []

/-- An HTTP response: status code and JSON body. -/
structure HResp where
  status : Nat
  body : PyVal

/-- The jsonify({'error': msg}) body shape. -/
def errBody (msg : String) : PyVal :=
  PyVal.dict [("error", PyVal.str msg)]

/-- The handler-level exception mapping of /generate and /generate-variants:
except ValueError gives HTTP 400 with str(e), except Exception gives
HTTP 500 with a generic message. -/
def pyErrResp (e : PyErr) : HResp :=
  match e with
  | PyErr.valueError m => HResp.mk 400 (errBody m)
  | _ => HResp.mk 500 (errBody "Internal server error")

/-- serve_image route: look the file up under OUTPUT_DIR/initials/filename,
404 when absent, otherwise stream the raw bytes (content type image/png). -/
def serve_image (fs : FS) (initials filename : String) : Except Nat (List Nat) :=
  match fsFindDir fs initials with
  | Option.none => Except.error 404
  | Option.some files =>
      match List.lookup filename files with
      | Option.none => Except.error 404
      | Option.some bytes => Except.ok bytes

/-- serve_image_base64 route: 404 when the file is absent, otherwise the JSON
envelope whose image_base64 field is the data-URI prefix followed by the
base64 encoding of the file bytes. -/
def serve_image_base64 (fs : FS) (initials filename : String) : Except Nat PyDict :=
  match fsFindDir fs initials with
  | Option.none => Except.error 404
  | Option.some files =>
      match List.lookup filename files with
      | Option.none => Except.error 404
      | Option.some bytes =>
          Except.ok
            [("success", PyVal.bool true),
             ("initials", PyVal.str initials),
             ("filename", PyVal.str filename),
             ("image_base64", PyVal.str
               ("data:image/png;base64," ++ String.mk (b64encodeBytes bytes)))]

/-- Body of the try block of the /generate route after JSON parsing, with the
filesystem threaded through even when an exception escapes. -/
def gpiCore (render : RenderFn) (fs : FS) (data : PyVal) (colors : List String)
    (pick : Nat) : Except PyErr HResp × FS :=
  match py_get_strip data "first_name" with
  | Except.error e => (Except.error e, fs)
  | Except.ok first_name =>
    match py_get_strip data "last_name" with
    | Except.error e => (Except.error e, fs)
    | Except.ok last_name =>
      if first_name = "" ∨ last_name = "" then
        (Except.ok (HResp.mk 400 (errBody "Both first_name and last_name are required")), fs)
      else
        match extract_initials first_name last_name with
        | Except.error e => (Except.error e, fs)
        | Except.ok initials =>
          match get_random_variant render fs initials colors pick with
          | (Except.error e, fs') => (Except.error e, fs')
          | (Except.ok variant, fs') =>
              if ¬ pyTruthy (optDict variant) then
                (Except.ok (HResp.mk 500 (errBody "Failed to generate image")), fs')
              else
                (Except.ok (HResp.mk 200 (PyVal.dict
                  [("success", PyVal.bool true),
                   ("user_info", PyVal.dict
                     [("first_name", PyVal.str first_name),
                      ("last_name", PyVal.str last_name),
                      ("initials", PyVal.str (match extract_initials first_name last_name with
                        | Except.ok i => i
                        | Except.error _ => ""))]),
                   ("image", optDict variant),
                   ("message", PyVal.str ("Profile image generated successfully for "
                      ++ first_name ++ " " ++ last_name))])), fs')

/-- The /generate route.  data0 is the result of request.get_json (PyVal.none
when it yields None); rawParse is the outcome of the json.loads fallback on the
raw body, consulted only when data0 is falsy, exactly as in the source.  The
parse layer above (malformed JSON in get_json itself) is outside the model. -/
def generate_profile_image (render : RenderFn) (fs : FS) (data0 : PyVal)
    (rawParse : Except Unit PyVal) (colors : List String) (pick : Nat) : HResp × FS :=
  match (if pyTruthy data0 then Except.ok data0 else rawParse : Except Unit PyVal) with
  | Except.error _ => (HResp.mk 400 (errBody "No valid JSON data provided"), fs)
  | Except.ok data =>
      match gpiCore render fs data colors pick with
      | (Except.ok resp, fs') => (resp, fs')
      | (Except.error e, fs') => (pyErrResp e, fs')

/-- Result of the /generate-variants route, instrumented with whether the
store-level generate_variants was reached. -/
structure RouteOut where
  resp : HResp
  fs : FS
  store_called : Bool

/-- Body of the try block of the /generate-variants route (the route function
is also named generate_variants in the source; the store method keeps that
name here).  Field reads happen before the emptiness and range validations,
exactly as in the source. -/
def gvrCore (render : RenderFn) (fs : FS) (data : PyVal) (colors : List String) :
    Except PyErr HResp × FS × Bool :=
  match py_get_strip data "first_name" with
  | Except.error e => (Except.error e, fs, false)
  | Except.ok first_name =>
  match py_get_strip data "last_name" with
  | Except.error e => (Except.error e, fs, false)
  | Except.ok last_name =>
  match py_get data "num_variants" (PyVal.int 3) with
  | Except.error e => (Except.error e, fs, false)
  | Except.ok num_variants =>
  if first_name = "" ∨ last_name = "" then
    (Except.ok (HResp.mk 400 (errBody "Both first_name and last_name are required")), fs, false)
  else if ¬ py_isinstance_int num_variants ∨ pyIntValue num_variants < 1 ∨ pyIntValue num_variants > 12 then
    (Except.ok (HResp.mk 400 (errBody "num_variants must be an integer between 1 and 12")), fs, false)
  else
  match extract_initials first_name last_name with
  | Except.error e => (Except.error e, fs, false)
  | Except.ok initials =>
  match generate_variants render fs initials (pyIntValue num_variants).toNat colors with
  | (Except.error e, fs') => (Except.error e, fs', true)
  | (Except.ok variants, fs') =>
      (Except.ok (HResp.mk 200 (PyVal.dict
        [("success", PyVal.bool true),
         ("user_info", PyVal.dict
           [("first_name", PyVal.str first_name),
            ("last_name", PyVal.str last_name),
            ("initials", PyVal.str initials)]),
         ("variants", PyVal.list (variants.map PyVal.dict)),
         ("total_variants", PyVal.int (variants.length : Int)),
         ("message", PyVal.str ("Generated " ++ Nat.repr variants.length
            ++ " variants for " ++ first_name ++ " " ++ last_name))])), fs', true)

/-- The /generate-variants route. -/
def generate_variants_route (render : RenderFn) (fs : FS) (data : PyVal)
    (colors : List String) : RouteOut :=
  if ¬ pyTruthy data then
    RouteOut.mk (HResp.mk 400 (errBody "No JSON data provided")) fs false
  else
    match gvrCore render fs data colors with
    | (Except.ok resp, fs', called) => RouteOut.mk resp fs' called
    | (Except.error e, fs', called) => RouteOut.mk (pyErrResp e) fs' called

/-- The try block of one iteration of the /bulk-generate loop. -/
def bulk_item_core (render : RenderFn) (user : PyVal) (colors : List String)
    (pick : Nat) (fs : FS) : Except PyErr PyVal × FS :=
  match py_get_strip user "first_name" with
  | Except.error e => (Except.error e, fs)
  | Except.ok first_name =>
  match py_get_strip user "last_name" with
  | Except.error e => (Except.error e, fs)
  | Except.ok last_name =>
  if first_name = "" ∨ last_name = "" then
    (Except.ok (PyVal.dict
      [("user", user),
       ("success", PyVal.bool false),
       ("error", PyVal.str "Both first_name and last_name are required")]), fs)
  else
  match extract_initials first_name last_name with
  | Except.error e => (Except.error e, fs)
  | Except.ok initials =>
  match get_random_variant render fs initials colors pick with
  | (Except.error e, fs') => (Except.error e, fs')
  | (Except.ok variant, fs') =>
      (Except.ok (PyVal.dict
        [("user", user),
         ("success", PyVal.bool true),
         ("initials", PyVal.str initials),
         ("image", optDict variant)]), fs')

/-- One iteration of the /bulk-generate loop: an exception in the item body is
caught and recorded as a per-item failure dict carrying the input and str(e). -/
def bulk_item (render : RenderFn) (user : PyVal) (colors : List String)
    (pick : Nat) (fs : FS) : PyVal × FS :=
  match bulk_item_core render user colors pick fs with
  | (Except.ok entry, fs') => (entry, fs')
  | (Except.error e, fs') =>
      (PyVal.dict
        [("user", user),
         ("success", PyVal.bool false),
         ("error", PyVal.str (pyErrMsg e))], fs')

/-- The /bulk-generate loop over the users, threading the store and drawing
fresh randomness per position (colorsO i for random.sample, pickO i for
random.choice at position i). -/
def bulk_loop (render : RenderFn) (colorsO : Nat → List String) (pickO : Nat → Nat) :
    List PyVal → Nat → FS → List PyVal × FS
  | [], _, fs => ([], fs)
  | user :: rest, i, fs =>
      match bulk_item render user (colorsO i) (pickO i) fs with
      | (entry, fs') =>
          match bulk_loop render colorsO pickO rest (i + 1) fs' with
          | (entries, fs'') => (entry :: entries, fs'')

/-- Truthiness of the success field of a result entry, as counted by the
source list comprehension over r['success']. -/
def successTruthy (r : PyVal) : Bool :=
  match r with
  | PyVal.dict e =>
      match pyLookup e "success" with
      | Option.some v => pyTruthy v
      | Option.none => false
  | _ => false

/-- The /bulk-generate route; its only exception handler is the generic one
(HTTP 500), and per-item exceptions never reach it. -/
def bulk_generate (render : RenderFn) (fs : FS) (data : PyVal)
    (colorsO : Nat → List String) (pickO : Nat → Nat) : HResp × FS :=
  if ¬ pyTruthy data then (HResp.mk 400 (errBody "Users array is required"), fs)
  else
    match pyContains data "users" with
    | Except.error _ => (HResp.mk 500 (errBody "Internal server error"), fs)
    | Except.ok b =>
      if ¬ b then (HResp.mk 400 (errBody "Users array is required"), fs)
      else
        match pyGetItem data "users" with
        | Except.error _ => (HResp.mk 500 (errBody "Internal server error"), fs)
        | Except.ok usersVal =>
          match usersVal with
          | PyVal.list users =>
              match bulk_loop render colorsO pickO users 0 fs with
              | (results, fs') =>
                  let successful : Nat := results.countP successTruthy
                  (HResp.mk 200 (PyVal.dict
                    [("success", PyVal.bool true),
                     ("total_users", PyVal.int (users.length : Int)),
                     ("successful_generations", PyVal.int (successful : Int)),
                     ("failed_generations", PyVal.int ((users.length : Int) - (successful : Int))),
                     ("results", PyVal.list results)]), fs')
          | _ => (HResp.mk 400 (errBody "Users must be an array"), fs)

/-- Directory listing restricted to .png files, the view get_random_variant
and the claims about on-disk variants work with. -/
def dirPngs (fs : FS) (initials : String) : List String :=
  (((fsFindDir fs initials).getD []).map Prod.fst).filter (fun f => py_endswith f ".png")

/-- Whether a filename survives the sequence-number recovery of
get_random_variant: split on _variant, take part 1, split on dot, take part 0,
parse as an integer. -/
def variantNumParses (f : String) : Bool :=
  match (py_split f "_variant")[1]? with
  | Option.none => false
  | Option.some part =>
      match (py_split part ".")[0]? with
      | Option.none => false
      | Option.some numStr => (py_int_chars numStr.data).isSome

/-- Whether an Except value is a ValidationError in the sense of the spec,
that is a Python ValueError. -/
def isValidationError {α : Type} : Except PyErr α → Bool
  | Except.error (PyErr.valueError _) => true
  | _ => false

/-- Whether a JSON value is an integer value proper (not a bool). -/
def isIntVal : PyVal → Bool
  | PyVal.int _ => true
  | _ => false

/-- A request field that is either absent or bound to a string. -/
def strOrAbsent : Option PyVal → Prop
  | Option.none => True
  | Option.some (PyVal.str _) => True
  | Option.some _ => False

/-- Uppercasing a character is idempotent, so the characters produced by
extract_initials are fixed points of toUpper (the uppercase invariant). -/
theorem char_toUpper_fix (c : Char) : c.toUpper.toUpper = c.toUpper := by
  unfold Char.toUpper
  by_cases h : c.toNat ≥ 97 ∧ c.toNat ≤ 122
  · rw [if_pos h]
    have hv : (c.toNat - 32).isValidChar := Or.inl (by omega)
    have ht : (Char.ofNat (c.toNat - 32)).toNat = c.toNat - 32 := by
      unfold Char.ofNat
      rw [dif_pos hv]
      unfold Char.ofNatAux
      rfl
    rw [if_neg]
    intro hcon
    rw [ht] at hcon
    omega
  · rw [if_neg h, if_neg h]

/-- C1: for every pair of names that are non-empty after stripping,
extract_initials succeeds with the 2-character string made of the uppercased
first characters of the stripped names; both characters are uppercase in the
sense of being fixed by toUpper. -/
theorem c1_extract_initials_two_upper (first last : String)
    (h1 : py_strip first ≠ "") (h2 : py_strip last ≠ "") :
    ∃ f0 l0 t1 t2, (py_strip first).data = f0 :: t1 ∧ (py_strip last).data = l0 :: t2 ∧
      extract_initials first last = Except.ok (String.mk [f0.toUpper, l0.toUpper]) ∧
      (String.mk [f0.toUpper, l0.toUpper]).length = 2 ∧
      f0.toUpper.toUpper = f0.toUpper ∧ l0.toUpper.toUpper = l0.toUpper := by
  have hf : first ≠ "" := by
    intro h
    apply h1
    rw [h]
    rfl
  have hl : last ≠ "" := by
    intro h
    apply h2
    rw [h]
    rfl
  obtain ⟨f0, t1, hft⟩ : ∃ f0 t1, (py_strip first).data = f0 :: t1 := by
    cases hd : (py_strip first).data with
    | nil => exact absurd (String.ext hd) h1
    | cons a t => exact ⟨a, t, rfl⟩
  obtain ⟨l0, t2, hlt⟩ : ∃ l0 t2, (py_strip last).data = l0 :: t2 := by
    cases hd : (py_strip last).data with
    | nil => exact absurd (String.ext hd) h2
    | cons a t => exact ⟨a, t, rfl⟩
  refine ⟨f0, l0, t1, t2, hft, hlt, ?_, rfl, char_toUpper_fix f0, char_toUpper_fix l0⟩
  unfold extract_initials
  rw [if_neg (by simp [hf, hl])]
  simp [py_index, hft, hlt]

/-- Witness for C1 at the names Arjun and Sharma. -/
theorem c1_witness :
    py_strip "Arjun" ≠ "" ∧ py_strip "Sharma" ≠ "" ∧
    ∃ f0 l0 t1 t2,
      (py_strip "Arjun").data = f0 :: t1 ∧ (py_strip "Sharma").data = l0 :: t2 ∧
      extract_initials "Arjun" "Sharma" = Except.ok (String.mk [f0.toUpper, l0.toUpper]) ∧
      (String.mk [f0.toUpper, l0.toUpper]).length = 2 ∧
      f0.toUpper.toUpper = f0.toUpper ∧ l0.toUpper.toUpper = l0.toUpper :=
  ⟨by decide, by decide,
   c1_extract_initials_two_upper "Arjun" "Sharma" (by decide) (by decide)⟩

/-- C2 counterexample: a whitespace-only first name is truthy, so it passes
the emptiness test and the indexing of the stripped empty string raises
IndexError, not the ValidationError the claim requires. -/
theorem c2_counterexample_whitespace :
    extract_initials " " "B" = Except.error (PyErr.indexError "index out of range") ∧
    isValidationError (extract_initials " " "B") = false :=
  ⟨rfl, rfl⟩

/-- C2 amended: an input that is the empty string fails with ValueError (the
ValidationError of the spec); an input that is non-empty but whitespace-only
fails with IndexError instead. -/
theorem c2_empty_vs_whitespace (first last : String) :
    (first = "" ∨ last = "" →
      extract_initials first last =
        Except.error (PyErr.valueError "Both first_name and last_name are required")) ∧
    (first ≠ "" → last ≠ "" → (py_strip first = "" ∨ py_strip last = "") →
      extract_initials first last = Except.error (PyErr.indexError "index out of range")) := by
  constructor
  · intro h
    unfold extract_initials
    rw [if_pos h]
  · intro hf hl hws
    unfold extract_initials
    rw [if_neg (by simp [hf, hl])]
    cases hd : (py_strip first).data with
    | nil => simp [py_index, hd]
    | cons a t =>
        rcases hws with h | h
        · rw [h] at hd
          cases hd
        · have hld : (py_strip last).data = [] := by rw [h]
          simp [py_index, hd, hld]

/-- Witness for the amended C2 at an empty first name and a whitespace-only
first name. -/
theorem c2_witness :
    extract_initials "" "B" =
      Except.error (PyErr.valueError "Both first_name and last_name are required") ∧
    extract_initials " " "B" = Except.error (PyErr.indexError "index out of range") :=
  ⟨(c2_empty_vs_whitespace "" "B").1 (Or.inl rfl),
   (c2_empty_vs_whitespace " " "B").2 (by decide) (by decide) (Or.inl (by decide))⟩

/-- Left cancellation of string concatenation. -/
theorem str_append_cancel_left (a s t : String) (h : a ++ s = a ++ t) : s = t := by
  apply String.ext
  have hd := congrArg String.data h
  rw [String.data_append, String.data_append] at hd
  exact List.append_cancel_left hd

/-- Right cancellation of string concatenation. -/
theorem str_append_cancel_right (s t a : String) (h : s ++ a = t ++ a) : s = t := by
  apply String.ext
  have hd := congrArg String.data h
  rw [String.data_append, String.data_append] at hd
  exact List.append_cancel_right hd

/-- Two equal variant filenames for the same initials have equal printed
sequence numbers. -/
theorem mkFilename_inj (initials : String) (v w : Nat)
    (h : mkFilename initials v = mkFilename initials w) : Nat.repr v = Nat.repr w := by
  unfold mkFilename at h
  exact str_append_cancel_left _ _ _ (str_append_cancel_right _ _ _ h)

/-- The filenames of one generation call are pairwise distinct for any count
up to the palette size. -/
theorem mkFilename_nodup (initials : String) (n : Nat) (hn : n ≤ 12) :
    ((List.range' 1 n).map (mkFilename initials)).Nodup := by
  have h12 : (12 - n) + n = 12 := by omega
  have happ := List.range'_append 1 n (12 - n) 1
  rw [h12] at happ
  have hsub : (List.range' 1 n).Sublist (List.range' 1 12) := by
    rw [← happ]
    simpa using List.sublist_append_left (List.range' 1 n) (List.range' (1 + 1 * n) (12 - n))
  refine List.Sublist.nodup (List.Sublist.map _ hsub) ?_
  refine List.Nodup.map_on ?_ (by decide)
  intro x hx y hy hxy
  have hrepr := mkFilename_inj initials x y hxy
  have hinj : ∀ x ∈ List.range' 1 12, ∀ y ∈ List.range' 1 12,
      Nat.repr x = Nat.repr y → x = y := by decide
  exact hinj x hx y hy hrepr

/-- Reading a list back elementwise with a default reproduces the list. -/
theorem getD_range_map {α : Type} (l : List α) (d : α) :
    (List.range l.length).map (fun i => l.getD i d) = l := by
  induction l with
  | nil => rfl
  | cons a t ih =>
      have : List.range (a :: t).length = 0 :: (List.range t.length).map Nat.succ := by
        simpa using List.range_succ_eq_map t.length
      rw [this]
      simp only [List.map_cons, List.map_map]
      refine congrArg₂ _ rfl ?_
      rw [show ((fun i => (a :: t).getD i d) ∘ Nat.succ) = (fun i => t.getD i d) from
        funext (fun i => rfl)]
      exact ih

/-- A successful random.choice picks an element of the sequence. -/
theorem py_choice_mem {α : Type} (l : List α) (pick : Nat) (v : α)
    (h : py_choice l pick = Except.ok v) : v ∈ l := by
  unfold py_choice at h
  cases l with
  | nil => cases h
  | cons a rest =>
      have hv : (a :: rest).getD (pick % (a :: rest).length) a = v := by
        cases h
        rfl
      have hlt : pick % (a :: rest).length < (a :: rest).length :=
        Nat.mod_lt _ (by simp)
      rw [List.getD_eq_getElem _ _ hlt] at hv
      rw [← hv]
      exact List.getElem_mem _

/-- Closed form of the generation loop when every index is inside the color
sample: the descriptors in sequence order and the store after the writes. -/
theorem gen_loop_eq (render : RenderFn) (initials : String) (colors : List String) :
    ∀ (vs : List Nat) (fs : FS), (∀ v ∈ vs, v - 1 < colors.length) →
      gen_loop render initials colors fs vs =
        (Except.ok (vs.map (fun v => mkVariantDict initials v (colors.getD (v - 1) ""))),
         vs.foldl (fun f v =>
           fsWrite f initials (mkFilename initials v)
             (render initials v (colors.getD (v - 1) ""))) fs) := by
  intro vs
  induction vs with
  | nil => intro fs _; rfl
  | cons v rest ih =>
      intro fs h
      have hv : v - 1 < colors.length := h v (List.mem_cons_self _ _)
      have hpi : py_index colors (v - 1) = Except.ok (colors.getD (v - 1) "") := by
        unfold py_index
        rw [List.getElem?_eq_getElem hv, List.getD_eq_getElem _ _ hv]
      have hrest := ih
        (fsWrite fs initials (mkFilename initials v)
          (render initials v (colors.getD (v - 1) "")))
        (fun w hw => h w (List.mem_cons_of_mem _ hw))
      unfold gen_loop
      rw [hpi]
      dsimp only
      rw [hrest]
      rfl

/-- C3: for a 2-character initials string and a count n in [1,12],
generate_variants succeeds with exactly n descriptors whose filename fields
are the pairwise-distinct names initials_variant1.png .. initials_variantN.png
in sequence order, and whose background colors are exactly the without-
replacement sample, hence pairwise distinct. -/
theorem c3_generate_variants_shape (render : RenderFn) (fs : FS) (initials : String)
    (n : Nat) (colors : List String)
    (_hinit : initials.length = 2) (h1 : 1 ≤ n) (h12 : n ≤ 12)
    (hs : sample_spec colors BACKGROUND_COLORS (min n BACKGROUND_COLORS.length)) :
    ∃ variants fs',
      generate_variants render fs initials n colors = (Except.ok variants, fs') ∧
      variants.length = n ∧
      variants.map (fun d => pyLookup d "filename") =
        (List.range' 1 n).map (fun v => Option.some (PyVal.str (mkFilename initials v))) ∧
      ((List.range' 1 n).map (mkFilename initials)).Nodup ∧
      variants.map (fun d => pyLookup d "bg_color") =
        colors.map (fun c => Option.some (PyVal.str c)) ∧
      (variants.map (fun d => pyLookup d "bg_color")).Nodup := by
  obtain ⟨hlen, hnodup, hmem⟩ := hs
  have hBC : BACKGROUND_COLORS.length = 12 := rfl
  have hlen' : colors.length = n := by
    rw [hlen, hBC]
    omega
  have hbound : ∀ v ∈ List.range' 1 n, v - 1 < colors.length := by
    intro v hv
    rw [hlen']
    have := List.mem_range'_1.mp hv
    omega
  have hgl := gen_loop_eq render initials colors (List.range' 1 n) (fsMkdir fs initials) hbound
  have hbg :
      ((List.range' 1 n).map (fun v =>
          mkVariantDict initials v (colors.getD (v - 1) ""))).map
        (fun d => pyLookup d "bg_color") =
      colors.map (fun c => Option.some (PyVal.str c)) := by
    rw [List.map_map]
    rw [show ((fun d => pyLookup d "bg_color") ∘ fun v =>
        mkVariantDict initials v (colors.getD (v - 1) "")) =
        (fun v => Option.some (PyVal.str (colors.getD (v - 1) ""))) from
      funext fun v => rfl]
    rw [show colors.map (fun c => Option.some (PyVal.str c)) =
        ((List.range colors.length).map (fun i => colors.getD i "")).map
          (fun c => Option.some (PyVal.str c)) from by rw [getD_range_map]]
    rw [List.map_map, hlen', List.range'_eq_map_range, List.map_map]
    exact congrArg (fun g => List.map g (List.range n))
      (funext fun x => by rw [Function.comp_apply, Function.comp_apply, Nat.add_sub_cancel_left])
  refine ⟨(List.range' 1 n).map (fun v => mkVariantDict initials v (colors.getD (v - 1) "")),
    (List.range' 1 n).foldl (fun f v => fsWrite f initials (mkFilename initials v)
      (render initials v (colors.getD (v - 1) ""))) (fsMkdir fs initials),
    ?_, ?_, ?_, mkFilename_nodup initials n h12, hbg, ?_⟩
  · unfold generate_variants
    exact hgl
  · simp
  · rw [List.map_map]
    exact congrArg (fun g => List.map g (List.range' 1 n)) (funext fun v => rfl)
  · rw [hbg]
    refine List.Nodup.map ?_ hnodup
    intro a b hab
    injection hab with hab'
    injection hab'

/-- Witness for C3 with initials AS, two variants and a two-color sample. -/
theorem c3_witness :
    ("AS" : String).length = 2 ∧ 1 ≤ 2 ∧ 2 ≤ 12 ∧
    sample_spec ["#FF9933", "#FFD700"] BACKGROUND_COLORS (min 2 BACKGROUND_COLORS.length) ∧
    ∃ variants fs',
      generate_variants (fun _ _ _ => [0]) [] "AS" 2 ["#FF9933", "#FFD700"] =
        (Except.ok variants, fs') ∧
      variants.length = 2 ∧
      variants.map (fun d => pyLookup d "filename") =
        (List.range' 1 2).map (fun v => Option.some (PyVal.str (mkFilename "AS" v))) ∧
      ((List.range' 1 2).map (mkFilename "AS")).Nodup ∧
      variants.map (fun d => pyLookup d "bg_color") =
        ["#FF9933", "#FFD700"].map (fun c => Option.some (PyVal.str c)) ∧
      (variants.map (fun d => pyLookup d "bg_color")).Nodup :=
  ⟨rfl, by decide, by decide, ⟨by decide, by decide, by decide⟩,
   c3_generate_variants_shape (fun _ _ _ => [0]) [] "AS" 2 ["#FF9933", "#FFD700"]
     rfl (by decide) (by decide) ⟨by decide, by decide, by decide⟩⟩

/-- C4 counterexample: with num_variants the JSON boolean true, which is not
an integer value, the route accepts the request (Python bools are ints and
True stands for 1), reaches the store and answers 200 rather than 400. -/
theorem c4_counterexample_bool_true :
    isIntVal (PyVal.bool true) = false ∧
    (generate_variants_route (fun _ _ _ => [0]) []
      (PyVal.dict [("first_name", PyVal.str "Ar"), ("last_name", PyVal.str "Sh"),
                   ("num_variants", PyVal.bool true)])
      ["#FF9933"]).resp.status = 200 ∧
    (generate_variants_route (fun _ _ _ => [0]) []
      (PyVal.dict [("first_name", PyVal.str "Ar"), ("last_name", PyVal.str "Sh"),
                   ("num_variants", PyVal.bool true)])
      ["#FF9933"]).store_called = true :=
  ⟨rfl, rfl, rfl⟩

/-- A present key makes the dict non-empty. -/
theorem lookup_some_ne_nil {β : Type} (d : List (String × β)) (k : String) (v : β)
    (h : List.lookup k d = Option.some v) : d ≠ [] := by
  intro hnil
  rw [hnil] at h
  cases h

/-- C4 amended: for a request body that is a JSON object whose first_name and
last_name fields (when present) are strings, if num_variants is present and is
not integer-valued in [1,12] - where, as in Python, a boolean counts as the
integer 0 or 1, so the boolean true slips through as 1 - the route answers
HTTP 400, never reaches the store generate_variants and leaves the store
untouched. -/
theorem c4_invalid_num_variants_rejected (render : RenderFn) (fs : FS)
    (d : PyDict) (colors : List String) (v : PyVal)
    (hfn : strOrAbsent (pyLookup d "first_name"))
    (hln : strOrAbsent (pyLookup d "last_name"))
    (hv : pyLookup d "num_variants" = Option.some v)
    (hbad : ¬ (py_isinstance_int v = true ∧ 1 ≤ pyIntValue v ∧ pyIntValue v ≤ 12)) :
    (generate_variants_route render fs (PyVal.dict d) colors).resp.status = 400 ∧
    (generate_variants_route render fs (PyVal.dict d) colors).fs = fs ∧
    (generate_variants_route render fs (PyVal.dict d) colors).store_called = false := by
  have hne : d ≠ [] := lookup_some_ne_nil d "num_variants" v hv
  have htr : pyTruthy (PyVal.dict d) = true := by
    simp [pyTruthy, List.isEmpty_iff, hne]
  obtain ⟨fn, hfn'⟩ : ∃ s, py_get_strip (PyVal.dict d) "first_name" = Except.ok s := by
    unfold py_get_strip py_get
    cases hl : pyLookup d "first_name" with
    | none => exact ⟨py_strip "", by simp [hl]⟩
    | some w =>
        rw [hl] at hfn
        cases w with
        | str s => exact ⟨py_strip s, by simp [hl]⟩
        | int n => cases hfn
        | bool b => cases hfn
        | list xs => cases hfn
        | dict dd => cases hfn
        | none => cases hfn
  obtain ⟨ln, hln'⟩ : ∃ s, py_get_strip (PyVal.dict d) "last_name" = Except.ok s := by
    unfold py_get_strip py_get
    cases hl : pyLookup d "last_name" with
    | none => exact ⟨py_strip "", by simp [hl]⟩
    | some w =>
        rw [hl] at hln
        cases w with
        | str s => exact ⟨py_strip s, by simp [hl]⟩
        | int n => cases hln
        | bool b => cases hln
        | list xs => cases hln
        | dict dd => cases hln
        | none => cases hln
  have hnum : py_get (PyVal.dict d) "num_variants" (PyVal.int 3) = Except.ok v := by
    unfold py_get
    dsimp only
    rw [hv]
    rfl
  have hcond : (¬ py_isinstance_int v ∨ pyIntValue v < 1 ∨ pyIntValue v > 12) := by
    by_cases hii : py_isinstance_int v = true
    · rcases lt_or_ge (pyIntValue v) 1 with h | h
      · right; left; exact h
      · rcases lt_or_ge (12 : Int) (pyIntValue v) with h2 | h2
        · right; right; exact h2
        · exact absurd ⟨hii, h, h2⟩ hbad
    · left
      simpa using hii
  have hcore : ∃ resp, gvrCore render fs (PyVal.dict d) colors = (Except.ok resp, fs, false) ∧
      resp.status = 400 := by
    unfold gvrCore
    rw [hfn', hln', hnum]
    dsimp only
    by_cases hnm : fn = "" ∨ ln = ""
    · rw [if_pos hnm]
      exact ⟨_, rfl, rfl⟩
    · rw [if_neg hnm, if_pos hcond]
      exact ⟨_, rfl, rfl⟩
  obtain ⟨resp, hc, hst⟩ := hcore
  unfold generate_variants_route
  rw [hc]
  simp [htr, hst]

/-- Witness for the amended C4: num_variants bound to a string is rejected
with 400 and the store is never called. -/
theorem c4_witness :
    pyLookup [("first_name", PyVal.str "Ar"), ("last_name", PyVal.str "Sh"),
              ("num_variants", PyVal.str "twenty")] "num_variants" =
      Option.some (PyVal.str "twenty") ∧
    ((generate_variants_route (fun _ _ _ => [0]) []
      (PyVal.dict [("first_name", PyVal.str "Ar"), ("last_name", PyVal.str "Sh"),
                   ("num_variants", PyVal.str "twenty")]) []).resp.status = 400 ∧
     (generate_variants_route (fun _ _ _ => [0]) []
      (PyVal.dict [("first_name", PyVal.str "Ar"), ("last_name", PyVal.str "Sh"),
                   ("num_variants", PyVal.str "twenty")]) []).fs = [] ∧
     (generate_variants_route (fun _ _ _ => [0]) []
      (PyVal.dict [("first_name", PyVal.str "Ar"), ("last_name", PyVal.str "Sh"),
                   ("num_variants", PyVal.str "twenty")]) []).store_called = false) :=
  ⟨rfl,
   c4_invalid_num_variants_rejected (fun _ _ _ => [0]) []
     [("first_name", PyVal.str "Ar"), ("last_name", PyVal.str "Sh"),
      ("num_variants", PyVal.str "twenty")] [] (PyVal.str "twenty")
     trivial trivial rfl (by decide)⟩

/-- One step of association-list lookup on a matching head. -/
theorem lookup_cons_eq {β : Type} (k : String) (v : β) (rest : List (String × β)) :
    List.lookup k ((k, v) :: rest) = Option.some v := by
  simp [List.lookup]

/-- One step of association-list lookup past a non-matching head. -/
theorem lookup_cons_ne {β : Type} (d k : String) (v : β) (rest : List (String × β))
    (h : d ≠ k) : List.lookup d ((k, v) :: rest) = List.lookup d rest := by
  have hbeq : (d == k) = false := beq_eq_false_iff_ne.mpr h
  simp [List.lookup, hbeq]

/-- Appending a fresh binding at the end is found when the key was absent. -/
theorem lookup_append_absent {β : Type} (fs : List (String × β)) (d : String) (x : β)
    (h : List.lookup d fs = Option.none) :
    List.lookup d (fs ++ [(d, x)]) = Option.some x := by
  induction fs with
  | nil => simp [List.lookup]
  | cons e rest ih =>
      cases e with
      | mk k v =>
          have hk : d ≠ k := by
            intro he
            rw [he, lookup_cons_eq] at h
            cases h
          rw [List.cons_append, lookup_cons_ne _ _ _ _ hk]
          rw [lookup_cons_ne _ _ _ _ hk] at h
          exact ih h

/-- The directory exists after makedirs, holding its previous files or none. -/
theorem fsFindDir_mkdir_self (fs : FS) (d : String) :
    fsFindDir (fsMkdir fs d) d = Option.some ((fsFindDir fs d).getD []) := by
  unfold fsMkdir
  cases h : fsFindDir fs d with
  | some files => simp [h]
  | none =>
      simp only [h, Option.isSome_none, Bool.false_eq_true, if_false, Option.getD_none]
      exact lookup_append_absent fs d [] h

/-- Writing a file changes only the written directory, which gets the setFile
update. -/
theorem fsFindDir_write_self (fs : FS) (d n : String) (b : List Nat) :
    fsFindDir (fsWrite fs d n b) d = (fsFindDir fs d).map (fun files => setFile files n b) := by
  induction fs with
  | nil => rfl
  | cons e rest ih =>
      cases e with
      | mk k files =>
          by_cases hk : k = d
          · subst hk
            unfold fsWrite fsFindDir
            simp only [List.map_cons]
            rw [show (if True then (k, setFile files n b) else (k, files)) =
              (k, setFile files n b) from if_pos trivial]
            rw [lookup_cons_eq, lookup_cons_eq]
            rfl
          · have hk' : d ≠ k := fun he => hk he.symm
            unfold fsWrite fsFindDir at ih ⊢
            simp only [List.map_cons, if_neg hk]
            rw [lookup_cons_ne _ _ _ _ hk', lookup_cons_ne _ _ _ _ hk']
            exact ih

/-- Writing a fresh name appends it to the directory key list. -/
theorem setFile_keys_of_not_mem (files : List (String × List Nat)) (n : String) (b : List Nat)
    (h : n ∉ files.map Prod.fst) :
    (setFile files n b).map Prod.fst = files.map Prod.fst ++ [n] := by
  induction files with
  | nil => rfl
  | cons e rest ih =>
      cases e with
      | mk f c =>
          have hf : f ≠ n := by
            intro he
            exact h (by simp [he])
          unfold setFile
          rw [if_neg hf]
          simp only [List.map_cons, List.cons_append]
          rw [ih (fun hm => h (by simp [hm]))]

/-- Every generated variant filename carries the .png extension. -/
theorem py_endswith_mkFilename (initials : String) (v : Nat) :
    py_endswith (mkFilename initials v) ".png" = true := by
  unfold py_endswith mkFilename
  rw [List.isSuffixOf_iff_suffix]
  exact ⟨(initials ++ "_variant" ++ Nat.repr v).data, by rw [← String.data_append]⟩

/-- Distinct printed sequence numbers give distinct filenames. -/
theorem mkFilename_ne (initials : String) (v w : Nat) (h : Nat.repr v ≠ Nat.repr w) :
    mkFilename initials v ≠ mkFilename initials w :=
  fun he => h (mkFilename_inj initials v w he)

/-- Closed form of the default 3-variant generation from a directory holding
no .png files (absent, empty, or non-png only): the call succeeds with the
three canonical descriptors and the directory then lists exactly the three
canonical .png files. -/
theorem generate_variants_3_clean (render : RenderFn) (fs : FS) (initials : String)
    (c0 c1 c2 : String) (hpng : dirPngs fs initials = []) :
    ∃ fs',
      generate_variants render fs initials 3 [c0, c1, c2] =
        (Except.ok [mkVariantDict initials 1 c0, mkVariantDict initials 2 c1,
          mkVariantDict initials 3 c2], fs') ∧
      dirPngs fs' initials =
        [mkFilename initials 1, mkFilename initials 2, mkFilename initials 3] := by
  have hgen : generate_variants render fs initials 3 [c0, c1, c2] =
      (Except.ok [mkVariantDict initials 1 c0, mkVariantDict initials 2 c1,
        mkVariantDict initials 3 c2],
       fsWrite (fsWrite (fsWrite (fsMkdir fs initials) initials
         (mkFilename initials 1) (render initials 1 c0)) initials
         (mkFilename initials 2) (render initials 2 c1)) initials
         (mkFilename initials 3) (render initials 3 c2)) := rfl
  refine ⟨_, hgen, ?_⟩
  have holds : fsFindDir (fsMkdir fs initials) initials =
      Option.some ((fsFindDir fs initials).getD []) := fsFindDir_mkdir_self fs initials
  have hknone : ∀ k ∈ ((fsFindDir fs initials).getD []).map Prod.fst,
      py_endswith k ".png" = false := by
    intro k hk
    have := List.filter_eq_nil_iff.mp hpng k hk
    simpa using this
  have hnot : ∀ v : Nat, mkFilename initials v ∉ ((fsFindDir fs initials).getD []).map Prod.fst := by
    intro v hm
    have := hknone _ hm
    rw [py_endswith_mkFilename] at this
    cases this
  unfold dirPngs
  rw [fsFindDir_write_self, fsFindDir_write_self, fsFindDir_write_self, holds]
  simp only [Option.map_some', Option.getD_some]
  have e1 : (setFile ((fsFindDir fs initials).getD [])
      (mkFilename initials 1) (render initials 1 c0)).map Prod.fst =
      ((fsFindDir fs initials).getD []).map Prod.fst ++ [mkFilename initials 1] :=
    setFile_keys_of_not_mem _ _ _ (hnot 1)
  have e2 : (setFile (setFile ((fsFindDir fs initials).getD [])
      (mkFilename initials 1) (render initials 1 c0))
      (mkFilename initials 2) (render initials 2 c1)).map Prod.fst =
      (((fsFindDir fs initials).getD []).map Prod.fst ++ [mkFilename initials 1])
        ++ [mkFilename initials 2] := by
    rw [setFile_keys_of_not_mem _ _ _ (by
      rw [e1]
      simp only [List.mem_append, List.mem_singleton]
      rintro (hm | he)
      · exact hnot 2 hm
      · exact mkFilename_ne initials 2 1 (by decide) he), e1]
  have e3 : (setFile (setFile (setFile ((fsFindDir fs initials).getD [])
      (mkFilename initials 1) (render initials 1 c0))
      (mkFilename initials 2) (render initials 2 c1))
      (mkFilename initials 3) (render initials 3 c2)).map Prod.fst =
      ((((fsFindDir fs initials).getD []).map Prod.fst ++ [mkFilename initials 1])
        ++ [mkFilename initials 2]) ++ [mkFilename initials 3] := by
    rw [setFile_keys_of_not_mem _ _ _ (by
      rw [e2]
      simp only [List.mem_append, List.mem_singleton]
      rintro ((hm | he1) | he2)
      · exact hnot 3 hm
      · exact mkFilename_ne initials 3 1 (by decide) he1
      · exact mkFilename_ne initials 3 2 (by decide) he2), e2]
  rw [e3]
  rw [List.filter_append, List.filter_append, List.filter_append]
  rw [List.filter_eq_nil_iff.mpr (by
    intro k hk
    rw [hknone k hk]
    exact fun h => by cases h)]
  simp [py_endswith_mkFilename]

/-- C5: when no variant directory exists for the initials, or it holds no
.png files, get_random_variant generates the default three variants and
returns one of that freshly created set; the directory afterwards holds
exactly the three canonical files. -/
theorem c5_lazy_default_generation (render : RenderFn) (fs : FS) (initials : String)
    (colors : List String) (pick : Nat)
    (hs : sample_spec colors BACKGROUND_COLORS 3)
    (hempty : dirPngs fs initials = []) :
    ∃ variants v fs',
      generate_variants render fs initials 3 colors = (Except.ok variants, fs') ∧
      variants.length = 3 ∧
      get_random_variant render fs initials colors pick = (Except.ok (Option.some v), fs') ∧
      v ∈ variants ∧
      dirPngs fs' initials =
        [mkFilename initials 1, mkFilename initials 2, mkFilename initials 3] := by
  obtain ⟨hlen, -, -⟩ := hs
  obtain ⟨c0, c1, c2, rfl⟩ := List.length_eq_three.mp hlen
  obtain ⟨fs', hgen, hpngs⟩ := generate_variants_3_clean render fs initials c0 c1 c2 hempty
  have hch : py_choice [mkVariantDict initials 1 c0, mkVariantDict initials 2 c1,
      mkVariantDict initials 3 c2] pick =
      Except.ok (([mkVariantDict initials 1 c0, mkVariantDict initials 2 c1,
        mkVariantDict initials 3 c2] : List PyDict).getD (pick % 3)
        (mkVariantDict initials 1 c0)) := rfl
  refine ⟨_, _, fs', hgen, rfl, ?_, py_choice_mem _ _ _ hch, hpngs⟩
  unfold get_random_variant
  cases hdir : fsFindDir fs initials with
  | none =>
      dsimp only
      rw [hgen]
      dsimp only
      rw [hch]
  | some files =>
      have hpe : (files.map Prod.fst).filter (fun f => py_endswith f ".png") = [] := by
        unfold dirPngs at hempty
        rw [hdir] at hempty
        simpa using hempty
      dsimp only
      rw [hpe]
      simp only [List.isEmpty_nil, if_true]
      rw [hgen]
      dsimp only
      rw [hch]

/-- Witness for C5 on an empty store with initials AS. -/
theorem c5_witness :
    sample_spec ["#FF9933", "#FFD700", "#A569BD"] BACKGROUND_COLORS 3 ∧
    dirPngs [] "AS" = [] ∧
    ∃ variants v fs',
      generate_variants (fun _ _ _ => [0]) [] "AS" 3 ["#FF9933", "#FFD700", "#A569BD"] =
        (Except.ok variants, fs') ∧
      variants.length = 3 ∧
      get_random_variant (fun _ _ _ => [0]) [] "AS" ["#FF9933", "#FFD700", "#A569BD"] 0 =
        (Except.ok (Option.some v), fs') ∧
      v ∈ variants ∧
      dirPngs fs' "AS" = [mkFilename "AS" 1, mkFilename "AS" 2, mkFilename "AS" 3] :=
  ⟨⟨by decide, by decide, by decide⟩, rfl,
   c5_lazy_default_generation (fun _ _ _ => [0]) [] "AS" ["#FF9933", "#FFD700", "#A569BD"] 0
     ⟨by decide, by decide, by decide⟩ rfl⟩

/-- C6 counterexample: a directory holding a .png file that does not follow
the variant naming convention makes the claim fail: get_random_variant raises
IndexError while recovering the sequence number instead of returning a
descriptor; the claim promises a descriptor for any directory with at least
one .png file. -/
theorem c6_counterexample_nonconforming_png :
    fsFindDir [("AS", [("weird.png", [])])] "AS" = Option.some [("weird.png", [])] ∧
    py_endswith "weird.png" ".png" = true ∧
    (get_random_variant (fun _ _ _ => []) [("AS", [("weird.png", [])])] "AS" [] 0).1 =
      Except.error (PyErr.indexError "index out of range") :=
  ⟨rfl, rfl, rfl⟩

/-- C6 amended: when the directory for the initials exists, holds at least one
.png file, and every .png file in it parses under the initials_variantN.png
convention, get_random_variant returns the descriptor of one of those files
and the store is returned unchanged: no file anywhere is created or removed. -/
theorem c6_existing_files_frame (render : RenderFn) (fs : FS) (initials : String)
    (colors : List String) (pick : Nat) (files : List (String × List Nat))
    (hdir : fsFindDir fs initials = Option.some files)
    (hne : dirPngs fs initials ≠ [])
    (hparse : ∀ f ∈ dirPngs fs initials, variantNumParses f = true) :
    ∃ f n,
      f ∈ dirPngs fs initials ∧
      get_random_variant render fs initials colors pick =
        (Except.ok (Option.some
          [("variant", PyVal.int n),
           ("filename", PyVal.str f),
           ("filepath", PyVal.str (mkFilepath initials f)),
           ("url", PyVal.str (mkUrl initials f))]), fs) := by
  have hP : dirPngs fs initials =
      (files.map Prod.fst).filter (fun g => py_endswith g ".png") := by
    unfold dirPngs
    rw [hdir]
    rfl
  rcases hLs : (files.map Prod.fst).filter (fun g => py_endswith g ".png") with _ | ⟨a, rest⟩
  · rw [hP, hLs] at hne
    exact absurd rfl hne
  · have hch : py_choice (a :: rest) pick =
        Except.ok ((a :: rest).getD (pick % (a :: rest).length) a) := rfl
    have hfd : (a :: rest).getD (pick % (a :: rest).length) a ∈ dirPngs fs initials := by
      rw [hP, hLs]
      exact py_choice_mem _ _ _ hch
    have hparse' := hparse _ hfd
    unfold variantNumParses at hparse'
    cases hsp1 : (py_split ((a :: rest).getD (pick % (a :: rest).length) a) "_variant")[1]? with
    | none =>
        rw [hsp1] at hparse'
        cases hparse'
    | some part =>
        rw [hsp1] at hparse'
        dsimp only at hparse'
        cases hsp2 : (py_split part ".")[0]? with
        | none =>
            rw [hsp2] at hparse'
            cases hparse'
        | some numStr =>
            rw [hsp2] at hparse'
            obtain ⟨n, hn⟩ := Option.isSome_iff_exists.mp hparse'
            refine ⟨_, n, hfd, ?_⟩
            unfold get_random_variant
            rw [hdir]
            dsimp only
            rw [hLs]
            simp only [List.isEmpty_cons, Bool.false_eq_true, if_false]
            rw [hch]
            dsimp only
            unfold py_index
            rw [hsp1]
            dsimp only
            rw [hsp2]
            dsimp only
            unfold py_int
            rw [hn]

/-- Witness for the amended C6 on a store holding one conforming file. -/
theorem c6_witness :
    fsFindDir [("AS", [("AS_variant2.png", [1])])] "AS" =
      Option.some [("AS_variant2.png", [1])] ∧
    dirPngs [("AS", [("AS_variant2.png", [1])])] "AS" ≠ [] ∧
    (∀ f ∈ dirPngs [("AS", [("AS_variant2.png", [1])])] "AS", variantNumParses f = true) ∧
    ∃ f n,
      f ∈ dirPngs [("AS", [("AS_variant2.png", [1])])] "AS" ∧
      get_random_variant (fun _ _ _ => []) [("AS", [("AS_variant2.png", [1])])] "AS" [] 0 =
        (Except.ok (Option.some
          [("variant", PyVal.int n),
           ("filename", PyVal.str f),
           ("filepath", PyVal.str (mkFilepath "AS" f)),
           ("url", PyVal.str (mkUrl "AS" f))]), [("AS", [("AS_variant2.png", [1])])]) :=
  ⟨rfl, by decide, by decide,
   c6_existing_files_frame (fun _ _ _ => []) [("AS", [("AS_variant2.png", [1])])] "AS" [] 0
     [("AS_variant2.png", [1])] rfl (by decide) (by decide)⟩

/-- The user value echoed by a bulk result entry. -/
def entryUser (r : PyVal) : Option PyVal :=
  match r with
  | PyVal.dict e => pyLookup e "user"
  | _ => Option.none

/-- Well-formedness of a bulk result entry: a success entry carries the
initials and an image; a failure entry carries an error message string. -/
def entryOk (r : PyVal) : Bool :=
  match r with
  | PyVal.dict e =>
      match pyLookup e "success" with
      | Option.some (PyVal.bool true) =>
          (match pyLookup e "initials" with
           | Option.some (PyVal.str _) => true
           | _ => false) &&
          (match pyLookup e "image" with
           | Option.some _ => true
           | _ => false)
      | Option.some (PyVal.bool false) =>
          (match pyLookup e "error" with
           | Option.some (PyVal.str _) => true
           | _ => false)
      | _ => false
  | _ => false

/-- Every successful iteration body of the bulk loop yields a well-formed
entry echoing its user. -/
theorem bulk_item_core_ok (render : RenderFn) (user : PyVal) (colors : List String)
    (pick : Nat) (fs : FS) (entry : PyVal) (fs' : FS)
    (h : bulk_item_core render user colors pick fs = (Except.ok entry, fs')) :
    entryUser entry = Option.some user ∧ entryOk entry = true := by
  unfold bulk_item_core at h
  repeat' split at h
  all_goals rw [Prod.mk.injEq] at h
  all_goals obtain ⟨h1, h2⟩ := h
  all_goals first
    | exact Except.noConfusion h1
    | (injection h1 with he
       subst he
       exact ⟨rfl, rfl⟩)

/-- Every bulk loop iteration, caught or not, yields a well-formed entry
echoing its user. -/
theorem bulk_item_spec (render : RenderFn) (user : PyVal) (colors : List String)
    (pick : Nat) (fs : FS) :
    entryUser (bulk_item render user colors pick fs).1 = Option.some user ∧
    entryOk (bulk_item render user colors pick fs).1 = true := by
  unfold bulk_item
  rcases hcore : bulk_item_core render user colors pick fs with ⟨res, fs'⟩
  cases res with
  | error e => exact ⟨rfl, rfl⟩
  | ok entry => exact bulk_item_core_ok render user colors pick fs entry fs' hcore

/-- The bulk loop produces one entry per user, in order, each well formed. -/
theorem bulk_loop_spec (render : RenderFn) (colorsO : Nat → List String)
    (pickO : Nat → Nat) :
    ∀ (users : List PyVal) (i : Nat) (fs : FS),
      (bulk_loop render colorsO pickO users i fs).1.length = users.length ∧
      (bulk_loop render colorsO pickO users i fs).1.map entryUser =
        users.map Option.some ∧
      (bulk_loop render colorsO pickO users i fs).1.all entryOk = true := by
  intro users
  induction users with
  | nil => intro i fs; exact ⟨rfl, rfl, rfl⟩
  | cons u rest ih =>
      intro i fs
      unfold bulk_loop
      rcases hit : bulk_item render u (colorsO i) (pickO i) fs with ⟨entry, fs'⟩
      obtain ⟨hue, hoe⟩ := bulk_item_spec render u (colorsO i) (pickO i) fs
      rw [hit] at hue hoe
      dsimp only at hue hoe
      obtain ⟨hl, hm, ha⟩ := ih (i + 1) fs'
      refine ⟨?_, ?_, ?_⟩
      · show (entry :: (bulk_loop render colorsO pickO rest (i + 1) fs').1).length =
          (u :: rest).length
        simp [hl]
      · show (entry :: (bulk_loop render colorsO pickO rest (i + 1) fs').1).map entryUser =
          (u :: rest).map Option.some
        simp [hm, hue]
      · show (entry :: (bulk_loop render colorsO pickO rest (i + 1) fs').1).all entryOk = true
        simp only [List.all_cons, hoe, Bool.true_and]
        exact ha

/-- A found key satisfies the membership scan of the dict. -/
theorem lookup_any_key {β : Type} (d : List (String × β)) (k : String) (v : β)
    (h : List.lookup k d = Option.some v) : d.any (fun e => e.1 == k) = true := by
  induction d with
  | nil => cases h
  | cons e rest ih =>
      cases e with
      | mk k' v' =>
          by_cases hk : k = k'
          · subst hk
            simp
          · rw [lookup_cons_ne _ _ _ _ hk] at h
            simp [ih h]

/-- C7: for a request whose users field is a list, the bulk route answers
HTTP 200 with exactly one result per user in order; each entry echoes its user
and, on failure, carries an error string; the aggregate counts satisfy
total_users = successful_generations + failed_generations. -/
theorem c7_bulk_isolation (render : RenderFn) (fs : FS) (d : PyDict)
    (colorsO : Nat → List String) (pickO : Nat → Nat) (users : List PyVal)
    (husers : pyLookup d "users" = Option.some (PyVal.list users)) :
    ∃ (results : List PyVal) (fs' : FS) (s : Nat),
      bulk_generate render fs (PyVal.dict d) colorsO pickO =
        (HResp.mk 200 (PyVal.dict
          [("success", PyVal.bool true),
           ("total_users", PyVal.int (users.length : Int)),
           ("successful_generations", PyVal.int (s : Int)),
           ("failed_generations", PyVal.int ((users.length : Int) - (s : Int))),
           ("results", PyVal.list results)]), fs') ∧
      results.length = users.length ∧
      results.map entryUser = users.map Option.some ∧
      results.all entryOk = true ∧
      s = results.countP successTruthy ∧
      s ≤ users.length ∧
      (users.length : Int) = (s : Int) + ((users.length : Int) - (s : Int)) := by
  have hne : d ≠ [] := lookup_some_ne_nil d "users" _ husers
  have htr : pyTruthy (PyVal.dict d) = true := by
    simp [pyTruthy, List.isEmpty_iff, hne]
  have hcont : pyContains (PyVal.dict d) "users" = Except.ok true := by
    unfold pyContains
    dsimp only
    rw [lookup_any_key d "users" _ husers]
  have hgetitem : pyGetItem (PyVal.dict d) "users" = Except.ok (PyVal.list users) := by
    unfold pyGetItem
    dsimp only
    rw [husers]
  rcases hlp : bulk_loop render colorsO pickO users 0 fs with ⟨results, fs'⟩
  obtain ⟨hl, hm, ha⟩ := bulk_loop_spec render colorsO pickO users 0 fs
  rw [hlp] at hl hm ha
  dsimp only at hl hm ha
  refine ⟨results, fs', results.countP successTruthy, ?_, hl, hm, ha, rfl, ?_, by omega⟩
  · unfold bulk_generate
    rw [if_neg (by simp [htr])]
    rw [hcont]
    dsimp only
    rw [if_neg (by simp)]
    rw [hgetitem]
    dsimp only
    rw [hlp]
  · rw [← hl]
    exact List.countP_le_length _

/-- Witness for C7: one valid user and one empty-name user give 200 with one
success and one recorded failure. -/
theorem c7_witness :
    pyLookup [("users", PyVal.list
      [PyVal.dict [("first_name", PyVal.str "Arjun"), ("last_name", PyVal.str "Sharma")],
       PyVal.dict [("first_name", PyVal.str ""), ("last_name", PyVal.str "X")]])] "users" =
      Option.some (PyVal.list
        [PyVal.dict [("first_name", PyVal.str "Arjun"), ("last_name", PyVal.str "Sharma")],
         PyVal.dict [("first_name", PyVal.str ""), ("last_name", PyVal.str "X")]]) ∧
    ∃ (results : List PyVal) (fs' : FS) (s : Nat),
      bulk_generate (fun _ _ _ => [0]) []
        (PyVal.dict [("users", PyVal.list
          [PyVal.dict [("first_name", PyVal.str "Arjun"), ("last_name", PyVal.str "Sharma")],
           PyVal.dict [("first_name", PyVal.str ""), ("last_name", PyVal.str "X")]])])
        (fun _ => ["#FF9933", "#FFD700", "#A569BD"]) (fun _ => 0) =
        (HResp.mk 200 (PyVal.dict
          [("success", PyVal.bool true),
           ("total_users", PyVal.int (2 : Int)),
           ("successful_generations", PyVal.int (s : Int)),
           ("failed_generations", PyVal.int ((2 : Int) - (s : Int))),
           ("results", PyVal.list results)]), fs') ∧
      results.length = 2 ∧
      results.map entryUser =
        [Option.some (PyVal.dict
           [("first_name", PyVal.str "Arjun"), ("last_name", PyVal.str "Sharma")]),
         Option.some (PyVal.dict
           [("first_name", PyVal.str ""), ("last_name", PyVal.str "X")])] ∧
      results.all entryOk = true ∧
      s = results.countP successTruthy ∧
      s ≤ 2 ∧
      (2 : Int) = (s : Int) + ((2 : Int) - (s : Int)) :=
  ⟨rfl,
   c7_bulk_isolation (fun _ _ _ => [0]) []
     [("users", PyVal.list
       [PyVal.dict [("first_name", PyVal.str "Arjun"), ("last_name", PyVal.str "Sharma")],
        PyVal.dict [("first_name", PyVal.str ""), ("last_name", PyVal.str "X")]])]
     (fun _ => ["#FF9933", "#FFD700", "#A569BD"]) (fun _ => 0)
     [PyVal.dict [("first_name", PyVal.str "Arjun"), ("last_name", PyVal.str "Sharma")],
      PyVal.dict [("first_name", PyVal.str ""), ("last_name", PyVal.str "X")]]
     rfl⟩

/-- Decoding inverts the alphabet on six-bit values. -/
theorem charSextet_sextetChar : ∀ a < 64, charSextet (sextetChar a) = a := by decide

/-- No six-bit value encodes to the padding character. -/
theorem sextetChar_ne_pad : ∀ a < 64, sextetChar a ≠ '=' := by decide

/-- Base64 decoding inverts base64 encoding on byte lists. -/
theorem b64_roundtrip (bs : List Nat) :
    (∀ b ∈ bs, b < 256) → b64decodeChars (b64encodeBytes bs) = bs := by
  induction bs using b64encodeBytes.induct with
  | case1 => intro _; rfl
  | case2 b1 =>
      intro h
      have hb1 : b1 < 256 := h b1 (by simp)
      show b64decodeChars [sextetChar (b1 / 4), sextetChar (b1 % 4 * 16), '=', '='] = [b1]
      unfold b64decodeChars
      rw [if_pos rfl]
      rw [charSextet_sextetChar _ (by omega), charSextet_sextetChar _ (by omega)]
      rw [show b1 / 4 * 4 + b1 % 4 * 16 / 16 = b1 by omega]
  | case3 b1 b2 =>
      intro h
      have hb1 : b1 < 256 := h b1 (by simp)
      have hb2 : b2 < 256 := h b2 (by simp)
      show b64decodeChars [sextetChar (b1 / 4), sextetChar (b1 % 4 * 16 + b2 / 16),
        sextetChar (b2 % 16 * 4), '='] = [b1, b2]
      unfold b64decodeChars
      rw [if_neg (sextetChar_ne_pad _ (by omega)), if_pos rfl]
      rw [charSextet_sextetChar _ (by omega), charSextet_sextetChar _ (by omega),
        charSextet_sextetChar _ (by omega)]
      rw [show b1 / 4 * 4 + (b1 % 4 * 16 + b2 / 16) / 16 = b1 by omega]
      rw [show (b1 % 4 * 16 + b2 / 16) % 16 * 16 + b2 % 16 * 4 / 4 = b2 by omega]
  | case4 b1 b2 b3 rest ih =>
      intro h
      have hb1 : b1 < 256 := h b1 (by simp)
      have hb2 : b2 < 256 := h b2 (by simp)
      have hb3 : b3 < 256 := h b3 (by simp)
      have hr : ∀ b ∈ rest, b < 256 := fun b hb => h b (by simp [hb])
      show b64decodeChars (sextetChar (b1 / 4) :: sextetChar (b1 % 4 * 16 + b2 / 16) ::
        sextetChar (b2 % 16 * 4 + b3 / 64) :: sextetChar (b3 % 64) ::
        b64encodeBytes rest) = b1 :: b2 :: b3 :: rest
      unfold b64decodeChars
      rw [if_neg (sextetChar_ne_pad _ (by omega)), if_neg (sextetChar_ne_pad _ (by omega))]
      rw [charSextet_sextetChar _ (by omega), charSextet_sextetChar _ (by omega),
        charSextet_sextetChar _ (by omega), charSextet_sextetChar _ (by omega)]
      rw [show b1 / 4 * 4 + (b1 % 4 * 16 + b2 / 16) / 16 = b1 by omega]
      rw [show (b1 % 4 * 16 + b2 / 16) % 16 * 16 + (b2 % 16 * 4 + b3 / 64) / 4 = b2 by omega]
      rw [show (b2 % 16 * 4 + b3 / 64) % 4 * 64 + b3 % 64 = b3 by omega]
      rw [ih hr]

/-- C8: for any stored file, the bytes streamed by the raw image route and
the base64 payload of the base64 route, after stripping the 22-character
data-URI prefix and decoding, are byte-identical. -/
theorem c8_serve_base64_roundtrip (fs : FS) (initials filename : String) (bytes : List Nat)
    (hserve : serve_image fs initials filename = Except.ok bytes)
    (hbytes : ∀ b ∈ bytes, b < 256) :
    ∃ d, serve_image_base64 fs initials filename = Except.ok d ∧
      pyLookup d "image_base64" =
        Option.some (PyVal.str
          ("data:image/png;base64," ++ String.mk (b64encodeBytes bytes))) ∧
      b64decodeChars
        (("data:image/png;base64," ++ String.mk (b64encodeBytes bytes)).data.drop 22) =
        bytes := by
  unfold serve_image at hserve
  cases hdir : fsFindDir fs initials with
  | none =>
      rw [hdir] at hserve
      cases hserve
  | some files =>
      rw [hdir] at hserve
      dsimp only at hserve
      cases hfile : List.lookup filename files with
      | none =>
          rw [hfile] at hserve
          cases hserve
      | some content =>
          rw [hfile] at hserve
          dsimp only at hserve
          injection hserve with he
          subst he
          refine ⟨[("success", PyVal.bool true), ("initials", PyVal.str initials),
            ("filename", PyVal.str filename),
            ("image_base64", PyVal.str
              ("data:image/png;base64," ++ String.mk (b64encodeBytes content)))],
            ?_, rfl, ?_⟩
          · unfold serve_image_base64
            rw [hdir]
            dsimp only
            rw [hfile]
          · rw [String.data_append]
            rw [show (22 : Nat) = ("data:image/png;base64," : String).data.length from rfl]
            rw [List.drop_left]
            exact b64_roundtrip _ hbytes

/-- Witness for C8 on a three-byte file. -/
theorem c8_witness :
    serve_image [("AS", [("AS_variant1.png", [77, 97, 110])])] "AS" "AS_variant1.png" =
      Except.ok [77, 97, 110] ∧
    (∀ b ∈ ([77, 97, 110] : List Nat), b < 256) ∧
    ∃ d, serve_image_base64 [("AS", [("AS_variant1.png", [77, 97, 110])])]
        "AS" "AS_variant1.png" = Except.ok d ∧
      pyLookup d "image_base64" =
        Option.some (PyVal.str
          ("data:image/png;base64," ++ String.mk (b64encodeBytes [77, 97, 110]))) ∧
      b64decodeChars
        (("data:image/png;base64," ++
          String.mk (b64encodeBytes [77, 97, 110])).data.drop 22) = [77, 97, 110] :=
  ⟨rfl, by decide,
   c8_serve_base64_roundtrip [("AS", [("AS_variant1.png", [77, 97, 110])])]
     "AS" "AS_variant1.png" [77, 97, 110] rfl (by decide)⟩

/-- Every descriptor of a successful generation loop is a five-field variant
dict. -/
theorem gen_loop_entries_shape (render : RenderFn) (initials : String)
    (colors : List String) :
    ∀ (vs : List Nat) (fs : FS) (res : List PyDict) (fs' : FS),
      gen_loop render initials colors fs vs = (Except.ok res, fs') →
      ∀ dd ∈ res, ∃ v bg, dd = mkVariantDict initials v bg := by
  intro vs
  induction vs with
  | nil =>
      intro fs res fs' hl dd hd
      unfold gen_loop at hl
      rw [Prod.mk.injEq] at hl
      obtain ⟨h1, h2⟩ := hl
      injection h1 with he
      subst he
      cases hd
  | cons v rest ih =>
      intro fs res fs' hl dd hd
      unfold gen_loop at hl
      cases hpi : py_index colors (v - 1) with
      | error e =>
          rw [hpi] at hl
          dsimp only at hl
          rw [Prod.mk.injEq] at hl
          exact Except.noConfusion hl.1
      | ok bg =>
          rw [hpi] at hl
          dsimp only at hl
          rcases hrec : gen_loop render initials colors
            (fsWrite fs initials (mkFilename initials v) (render initials v bg)) rest
            with ⟨r1, fs''⟩
          rw [hrec] at hl
          cases r1 with
          | error e =>
              dsimp only at hl
              rw [Prod.mk.injEq] at hl
              exact Except.noConfusion hl.1
          | ok ds =>
              dsimp only at hl
              rw [Prod.mk.injEq] at hl
              obtain ⟨h1, h2⟩ := hl
              injection h1 with he
              subst he
              rcases List.mem_cons.mp hd with hd' | hd'
              · exact ⟨v, bg, hd'⟩
              · exact ih _ _ _ hrec dd hd'

/-- Inversion of a successful get_random_variant call: either the directory
had no .png files and the result is one of a fresh default generation, or it
had some and the result is the re-derived descriptor of an existing file with
the store untouched. -/
theorem grv_ok_inv (render : RenderFn) (fs : FS) (initials : String)
    (colors : List String) (pick : Nat) (o : Option PyDict) (fs' : FS)
    (h : get_random_variant render fs initials colors pick = (Except.ok o, fs')) :
    (dirPngs fs initials = [] ∧
      ∃ variants v, generate_variants render fs initials 3 colors =
          (Except.ok variants, fs') ∧
        o = Option.some v ∧ v ∈ variants) ∨
    (dirPngs fs initials ≠ [] ∧ fs' = fs ∧
      ∃ f n, f ∈ dirPngs fs initials ∧
        o = Option.some
          [("variant", PyVal.int n), ("filename", PyVal.str f),
           ("filepath", PyVal.str (mkFilepath initials f)),
           ("url", PyVal.str (mkUrl initials f))]) := by
  unfold get_random_variant at h
  cases hdir : fsFindDir fs initials with
  | none =>
      left
      have hde : dirPngs fs initials = [] := by
        unfold dirPngs
        rw [hdir]
        rfl
      refine ⟨hde, ?_⟩
      rw [hdir] at h
      dsimp only at h
      rcases hgen : generate_variants render fs initials 3 colors with ⟨r, fsg⟩
      rw [hgen] at h
      cases r with
      | error e =>
          dsimp only at h
          rw [Prod.mk.injEq] at h
          exact Except.noConfusion h.1
      | ok variants =>
          dsimp only at h
          cases hch : py_choice variants pick with
          | error e =>
              rw [hch] at h
              dsimp only at h
              rw [Prod.mk.injEq] at h
              exact Except.noConfusion h.1
          | ok w =>
              rw [hch] at h
              dsimp only at h
              rw [Prod.mk.injEq] at h
              obtain ⟨h1, h2⟩ := h
              injection h1 with he
              exact ⟨variants, w, by rw [← h2], he.symm, py_choice_mem _ _ _ hch⟩
  | some files =>
      rw [hdir] at h
      dsimp only at h
      by_cases hpe : ((files.map Prod.fst).filter (fun g => py_endswith g ".png")).isEmpty = true
      · left
        have hde : dirPngs fs initials = [] := by
          unfold dirPngs
          rw [hdir]
          simpa using List.isEmpty_iff.mp hpe
        refine ⟨hde, ?_⟩
        rw [if_pos hpe] at h
        rcases hgen : generate_variants render fs initials 3 colors with ⟨r, fsg⟩
        rw [hgen] at h
        cases r with
        | error e =>
            dsimp only at h
            rw [Prod.mk.injEq] at h
            exact Except.noConfusion h.1
        | ok variants =>
            dsimp only at h
            cases hch : py_choice variants pick with
            | error e =>
                rw [hch] at h
                dsimp only at h
                rw [Prod.mk.injEq] at h
                exact Except.noConfusion h.1
            | ok w =>
                rw [hch] at h
                dsimp only at h
                rw [Prod.mk.injEq] at h
                obtain ⟨h1, h2⟩ := h
                injection h1 with he
                exact ⟨variants, w, by rw [← h2], he.symm, py_choice_mem _ _ _ hch⟩
      · right
        have hne : dirPngs fs initials ≠ [] := by
          unfold dirPngs
          rw [hdir]
          intro hc
          apply hpe
          simp only [Option.getD_some] at hc ⊢
          rw [hc]
          rfl
        have hdp : dirPngs fs initials =
            (files.map Prod.fst).filter (fun g => py_endswith g ".png") := by
          unfold dirPngs
          rw [hdir]
          rfl
        rw [if_neg hpe] at h
        cases hch : py_choice ((files.map Prod.fst).filter (fun g => py_endswith g ".png")) pick with
        | error e =>
            rw [hch] at h
            dsimp only at h
            rw [Prod.mk.injEq] at h
            exact Except.noConfusion h.1
        | ok f =>
            rw [hch] at h
            dsimp only at h
            cases hi1 : py_index (py_split f "_variant") 1 with
            | error e =>
                rw [hi1] at h
                dsimp only at h
                rw [Prod.mk.injEq] at h
                exact Except.noConfusion h.1
            | ok part =>
                rw [hi1] at h
                dsimp only at h
                cases hi2 : py_index (py_split part ".") 0 with
                | error e =>
                    rw [hi2] at h
                    dsimp only at h
                    rw [Prod.mk.injEq] at h
                    exact Except.noConfusion h.1
                | ok numStr =>
                    rw [hi2] at h
                    dsimp only at h
                    cases hpi : py_int numStr with
                    | error e =>
                        rw [hpi] at h
                        dsimp only at h
                        rw [Prod.mk.injEq] at h
                        exact Except.noConfusion h.1
                    | ok n =>
                        rw [hpi] at h
                        dsimp only at h
                        rw [Prod.mk.injEq] at h
                        obtain ⟨h1, h2⟩ := h
                        injection h1 with he
                        refine ⟨hne, h2.symm, f, n, ?_, he.symm⟩
                        rw [hdp]
                        exact py_choice_mem _ _ _ hch

/-- C9: every descriptor produced by generate_variants (and by the fresh
branch of get_random_variant) carries the five fields variant, filename,
filepath, bg_color, url, while the fetched-existing branch produces exactly
variant, filename, filepath, url with no color field. -/
theorem c9_shape_asymmetry (render : RenderFn) (fs : FS) (initials : String)
    (colors : List String) (pick : Nat) :
    (∀ n res fs', generate_variants render fs initials n colors = (Except.ok res, fs') →
       ∀ dd ∈ res, dd.map Prod.fst = ["variant", "filename", "filepath", "bg_color", "url"]) ∧
    (dirPngs fs initials = [] →
       ∀ v fs', get_random_variant render fs initials colors pick =
           (Except.ok (Option.some v), fs') →
         v.map Prod.fst = ["variant", "filename", "filepath", "bg_color", "url"]) ∧
    (dirPngs fs initials ≠ [] →
       ∀ v fs', get_random_variant render fs initials colors pick =
           (Except.ok (Option.some v), fs') →
         v.map Prod.fst = ["variant", "filename", "filepath", "url"]) := by
  have hshape : ∀ n res fs',
      generate_variants render fs initials n colors = (Except.ok res, fs') →
      ∀ dd ∈ res, dd.map Prod.fst =
        ["variant", "filename", "filepath", "bg_color", "url"] := by
    intro n res fs' hg dd hd
    unfold generate_variants at hg
    obtain ⟨v, bg, rfl⟩ := gen_loop_entries_shape render initials colors _ _ _ _ hg dd hd
    rfl
  refine ⟨hshape, ?_, ?_⟩
  · intro hde v fs' h
    rcases grv_ok_inv render fs initials colors pick _ _ h with
      ⟨_, variants, w, hgen, ho, hmem⟩ | ⟨hne, _⟩
    · injection ho with he
      subst he
      exact hshape 3 variants fs' hgen _ hmem
    · exact absurd hde hne
  · intro hne v fs' h
    rcases grv_ok_inv render fs initials colors pick _ _ h with
      ⟨hde, _⟩ | ⟨_, _, f, n, hmemf, ho⟩
    · exact absurd hde hne
    · injection ho with he
      subst he
      rfl

/-- Witness for C9: a freshly generated descriptor has the five fields with
bg_color, a fetched-existing descriptor the four fields without it. -/
theorem c9_witness :
    (mkVariantDict "AS" 1 "#FF9933").map Prod.fst =
      ["variant", "filename", "filepath", "bg_color", "url"] ∧
    ([("variant", PyVal.int 2), ("filename", PyVal.str "AS_variant2.png"),
      ("filepath", PyVal.str (mkFilepath "AS" "AS_variant2.png")),
      ("url", PyVal.str (mkUrl "AS" "AS_variant2.png"))] : PyDict).map Prod.fst =
      ["variant", "filename", "filepath", "url"] :=
  ⟨(c9_shape_asymmetry (fun _ _ _ => [0]) [] "AS"
      ["#FF9933", "#FFD700", "#A569BD"] 0).1 3
      [mkVariantDict "AS" 1 "#FF9933", mkVariantDict "AS" 2 "#FFD700",
       mkVariantDict "AS" 3 "#A569BD"]
      [("AS", [("AS_variant1.png", [0]), ("AS_variant2.png", [0]),
               ("AS_variant3.png", [0])])]
      rfl (mkVariantDict "AS" 1 "#FF9933") (List.mem_cons_self _ _),
   (c9_shape_asymmetry (fun _ _ _ => []) [("AS", [("AS_variant2.png", [1])])] "AS" [] 0).2.2
      (by decide)
      [("variant", PyVal.int 2), ("filename", PyVal.str "AS_variant2.png"),
       ("filepath", PyVal.str (mkFilepath "AS" "AS_variant2.png")),
       ("url", PyVal.str (mkUrl "AS" "AS_variant2.png"))]
      [("AS", [("AS_variant2.png", [1])])]
      rfl⟩

/-- Distinct messages give distinct error bodies. -/
theorem errBody_ne (m1 m2 : String) (h : m1 ≠ m2) : errBody m1 ≠ errBody m2 := by
  intro he
  unfold errBody at he
  injection he with hl
  injection hl with hp _
  rw [Prod.mk.injEq] at hp
  obtain ⟨_, hs⟩ := hp
  injection hs with hs'
  exact h hs'

/-- C10: whenever get_random_variant returns, the returned value is a
non-None, non-empty dict, so the Failed-to-generate-image 500 branch of the
/generate handler, which guards against a falsy variant, is unreachable: the
handler never produces that response. -/
theorem c10_variant_never_falsy (render : RenderFn) (fs : FS) (initials : String)
    (colors : List String) (pick : Nat) :
    (∀ o fs', get_random_variant render fs initials colors pick = (Except.ok o, fs') →
       ∃ dd, o = Option.some dd ∧ dd ≠ []) ∧
    (∀ data0 rawParse,
       (generate_profile_image render fs data0 rawParse colors pick).1 ≠
         HResp.mk 500 (errBody "Failed to generate image")) := by
  have hgrv : ∀ (ini : String) (o : Option PyDict) (fs'' : FS),
      get_random_variant render fs ini colors pick = (Except.ok o, fs'') →
      ∃ dd, o = Option.some dd ∧ dd ≠ [] := by
    intro ini o fs'' h
    rcases grv_ok_inv render fs ini colors pick o fs'' h with
      ⟨_, variants, w, hgen, ho, hmem⟩ | ⟨_, _, f, n, _, ho⟩
    · refine ⟨w, ho, ?_⟩
      unfold generate_variants at hgen
      obtain ⟨v, bg, rfl⟩ := gen_loop_entries_shape render ini colors _ _ _ _ hgen w hmem
      simp [mkVariantDict]
    · exact ⟨_, ho, by simp⟩
  have hcore : ∀ (data : PyVal) (resp : HResp) (fsr : FS),
      gpiCore render fs data colors pick = (Except.ok resp, fsr) →
      resp ≠ HResp.mk 500 (errBody "Failed to generate image") := by
    intro data resp fsr hc
    unfold gpiCore at hc
    cases h1 : py_get_strip data "first_name" with
    | error e =>
        rw [h1] at hc
        dsimp only at hc
        rw [Prod.mk.injEq] at hc
        exact Except.noConfusion hc.1
    | ok fn =>
        rw [h1] at hc
        dsimp only at hc
        cases h2 : py_get_strip data "last_name" with
        | error e =>
            rw [h2] at hc
            dsimp only at hc
            rw [Prod.mk.injEq] at hc
            exact Except.noConfusion hc.1
        | ok ln =>
            rw [h2] at hc
            dsimp only at hc
            by_cases hnm : fn = "" ∨ ln = ""
            · rw [if_pos hnm] at hc
              rw [Prod.mk.injEq] at hc
              injection hc.1 with he
              subst he
              intro hcon
              injection hcon with hs _
              exact absurd hs (by decide)
            · rw [if_neg hnm] at hc
              cases h3 : extract_initials fn ln with
              | error e =>
                  rw [h3] at hc
                  dsimp only at hc
                  rw [Prod.mk.injEq] at hc
                  exact Except.noConfusion hc.1
              | ok ini =>
                  rw [h3] at hc
                  dsimp only at hc
                  rcases h4 : get_random_variant render fs ini colors pick with ⟨rv, fsv⟩
                  rw [h4] at hc
                  cases rv with
                  | error e =>
                      dsimp only at hc
                      rw [Prod.mk.injEq] at hc
                      exact Except.noConfusion hc.1
                  | ok variantOpt =>
                      dsimp only at hc
                      obtain ⟨dd, hdd, hne⟩ := hgrv ini variantOpt fsv h4
                      subst hdd
                      have htv : pyTruthy (optDict (Option.some dd)) = true := by
                        unfold optDict pyTruthy
                        simp [List.isEmpty_iff, hne]
                      rw [if_neg (by simp [htv])] at hc
                      rw [Prod.mk.injEq] at hc
                      injection hc.1 with he
                      subst he
                      intro hcon
                      injection hcon with hs _
                      exact absurd hs (by decide)
  refine ⟨hgrv initials, ?_⟩
  intro data0 rawParse
  unfold generate_profile_image
  cases hdp : (if pyTruthy data0 then Except.ok data0 else rawParse : Except Unit PyVal) with
  | error u =>
      dsimp only
      intro hcon
      injection hcon with hs _
      exact absurd hs (by decide)
  | ok data =>
      dsimp only
      rcases hc : gpiCore render fs data colors pick with ⟨r, fsr⟩
      cases r with
      | error e =>
          dsimp only
          cases e with
          | valueError m =>
              intro hcon
              injection hcon with hs _
              exact absurd hs (by decide)
          | indexError m =>
              intro hcon
              injection hcon with _ hb
              exact errBody_ne _ _ (by decide) hb
          | attributeError m =>
              intro hcon
              injection hcon with _ hb
              exact errBody_ne _ _ (by decide) hb
          | typeError m =>
              intro hcon
              injection hcon with _ hb
              exact errBody_ne _ _ (by decide) hb
          | keyError m =>
              intro hcon
              injection hcon with _ hb
              exact errBody_ne _ _ (by decide) hb
      | ok resp =>
          dsimp only
          exact hcore data resp fsr hc

/-- Witness for C10 on an empty store: the returned variant is a non-empty
dict and the handler response is not the failed-generation 500. -/
theorem c10_witness :
    (∃ dd, (Option.some (mkVariantDict "AS" 1 "#FF9933") : Option PyDict) =
      Option.some dd ∧ dd ≠ []) ∧
    (generate_profile_image (fun _ _ _ => [0]) []
      (PyVal.dict [("first_name", PyVal.str "Arjun"), ("last_name", PyVal.str "Sharma")])
      (Except.error ()) ["#FF9933", "#FFD700", "#A569BD"] 0).1 ≠
      HResp.mk 500 (errBody "Failed to generate image") :=
  ⟨(c10_variant_never_falsy (fun _ _ _ => [0]) [] "AS"
      ["#FF9933", "#FFD700", "#A569BD"] 0).1
      (Option.some (mkVariantDict "AS" 1 "#FF9933"))
      [("AS", [("AS_variant1.png", [0]), ("AS_variant2.png", [0]),
               ("AS_variant3.png", [0])])]
      rfl,
   (c10_variant_never_falsy (fun _ _ _ => [0]) [] "AS"
      ["#FF9933", "#FFD700", "#A569BD"] 0).2
      (PyVal.dict [("first_name", PyVal.str "Arjun"), ("last_name", PyVal.str "Sharma")])
      (Except.error ())⟩
